import Mathlib

/-!
Shallow embedding of the instrumentation wrapping engine and trace-decision
rule system of the telemetry SDK (src/telemetry), together with proofs of the
behavioural claims about it.

The embedding mirrors the Python source:
* `src/telemetry/utils/trace_decision.py` → `should_trace` and its helpers;
* `src/telemetry/auto/decorators.py` → `resolve_telemetry`,
  `unified_trace_wrapper`, `trace_wrapper`;
* `src/telemetry/auto/class_instrumentor.py` → `class_wrapper_body`,
  `make_wrapper`, `instrument_class`.

Python dictionaries are modelled as association lists (`dictGet` is
`dict.get`), exceptions as the `PyErr` record (type name and message) threaded
through `Except`, and the external telemetry sinks as a behaviour function
`TeleOp → Option PyErr` saying, for each sink operation, whether the sink
raises when invoked.  Wrapped calls return their `Except` outcome together
with the ordered list of sink operations attempted during the call.
-/

namespace TelemetrySdk

/-- A Python exception, reduced to its type name and message. -/
structure PyErr where
  ty : String
  msg : String
deriving DecidableEq, Repr

/-- One invocation of an external telemetry sink, as performed by the wrappers:
span start, span attribute set, metric counter increment / histogram record
(tagged with the metric name and the `outcome` tag the source passes), log
emission with its message, and the span error operations. -/
inductive TeleOp where
  | startSpan (name : String)
  | setAttr (key : String)
  | incCounter (name : String) (outcome : String)
  | recHistogram (name : String) (outcome : String)
  | logInfo (msg : String)
  | logError (msg : String)
  | recordException
  | setStatus
deriving DecidableEq, Repr

/-- Model of Python `dict.get` over an association-list dict. -/
def dictGet {β : Type} (d : List (String × β)) (k : String) : Option β :=
  match d with
  | [] => none
  | (k', v) :: rest => if k' == k then some v else dictGet rest k

/-- Fuel-driven core of Python `fnmatch.fnmatch` restricted to the glob
syntax the spec's glossary gives (`*` matches any run of characters, `?`
matches one character, anything else is a literal).  The fuel only bounds
recursion depth; `pattern.length + s.length + 1` always suffices. -/
def globMatchF : Nat → List Char → List Char → Bool
  | 0, _, _ => false
  | _ + 1, [], [] => true
  | _ + 1, [], _ :: _ => false
  | f + 1, '*' :: ps, [] => globMatchF f ps []
  | f + 1, '*' :: ps, c :: cs =>
      globMatchF f ps (c :: cs) || globMatchF f ('*' :: ps) cs
  | _ + 1, '?' :: _, [] => false
  | f + 1, '?' :: ps, _ :: cs => globMatchF f ps cs
  | _ + 1, _ :: _, [] => false
  | f + 1, p :: ps, c :: cs => p == c && globMatchF f ps cs

/-- Python `fnmatch.fnmatch(name, pattern)` for `*`/`?`/literal patterns. -/
def fnmatch (name pattern : String) : Bool :=
  globMatchF (pattern.length + name.length + 1) pattern.toList name.toList

/-- The per-invocation call descriptor the decision engine receives
(`ctx` in `trace_decision.py`): a dict with a `layer` key and the
layer-specific `route` / `method` keys. -/
structure CallDescriptor where
  layer : Option String
  route : Option String
  method : Option String
deriving DecidableEq, Repr

/-- The telemetry context object: the master trace switch
(`enable_traces`), the optional rule set (`trace_rules`, a dict
layer → dict of pattern lists), whether `tele.traces` (with its tracer) is
available, and the behaviour of the external sinks — for each sink
operation, `none` means the sink call succeeds and `some e` means it raises
`e`. -/
structure Tele where
  enable_traces : Bool
  trace_rules : Option (List (String × List (String × List String)))
  hasTraces : Bool
  beh : TeleOp → Option PyErr

/-- HTTP branch of `should_trace` (trace_decision.py lines 49-61):
include-stage then exclude-stage glob matching of the route. -/
def http_decision (layer_rules : List (String × List String)) (route : String) : Bool :=
  let inc := (dictGet layer_rules "include_routes").getD []
  if !inc.isEmpty && !(inc.any (fun p => fnmatch route p)) then false
  else if ((dictGet layer_rules "exclude_routes").getD []).any (fun p => fnmatch route p) then
    false
  else true

/-- Business branch of `should_trace` (trace_decision.py lines 66-78):
identical two-stage matching against the (unqualified) method name. -/
def business_decision (layer_rules : List (String × List String)) (method : String) : Bool :=
  let inc := (dictGet layer_rules "include_methods").getD []
  if !inc.isEmpty && !(inc.any (fun p => fnmatch method p)) then false
  else if ((dictGet layer_rules "exclude_methods").getD []).any (fun p => fnmatch method p) then
    false
  else true

/-- Translation of `should_trace(telemetry, ctx)` from
`src/telemetry/utils/trace_decision.py`.
A `none` telemetry models Python `None` (on which `getattr(·, "enable_traces",
False)` yields `False`).  Python truthiness of the rule dicts is modelled by
the `isEmpty` checks (`if not trace_rules` / `if not layer_rules`). -/
def should_trace (telemetry : Option Tele) (ctx : CallDescriptor) : Bool :=
  match telemetry with
  | none => false
  | some tele =>
    if !tele.enable_traces then false
    else
      match tele.trace_rules with
      | none => true
      | some rules =>
        if rules.isEmpty then true
        else
          match ctx.layer with
          | none => true
          | some layer =>
            match dictGet rules layer with
            | none => true
            | some layer_rules =>
              if layer_rules.isEmpty then true
              else if layer == "http" then http_decision layer_rules (ctx.route.getD "")
              else if layer == "business" then business_decision layer_rules (ctx.method.getD "")
              else true

/-- Attempt a sequence of sink operations in order against behaviour `beh`,
stopping at the first one that raises.  Returns the raised error (if any)
and the list of operations actually attempted (including the failing one). -/
def runOps (beh : TeleOp → Option PyErr) : List TeleOp → Option PyErr × List TeleOp
  | [] => (none, [])
  | op :: rest =>
    match beh op with
    | some e => (some e, [op])
    | none =>
      let r := runOps beh rest
      (r.1, op :: r.2)

/-- A `try: ... except Exception: pass`-guarded block of sink operations:
any raised error is swallowed; only the attempted operations remain. -/
def guardedOps (beh : TeleOp → Option PyErr) (ops : List TeleOp) : List TeleOp :=
  (runOps beh ops).2

/-- The `except Exception as e:` block of the class-instrumentor wrapper
(class_instrumentor.py lines 107-158): span error recording, error metrics
and the error log are each individually guarded, so the block never raises
and the original error is re-raised by the caller.  `spanPresent` is Python's
`if span:` (false when `start_as_current_span` itself raised). -/
def class_error_path (beh : TeleOp → Option PyErr) (counterName histName errMsg : String)
    (spanPresent : Bool) : List TeleOp :=
  (if spanPresent then guardedOps beh [.recordException, .setStatus] else []) ++
    guardedOps beh [.incCounter counterName "error", .recHistogram histName "error"] ++
    guardedOps beh [.logError errMsg]

/-- Attribute keys the class wrapper sets on the span before calling the
original method (class_instrumentor.py lines 57-61). -/
def classAttrOps : List TeleOp :=
  [.setAttr "code.function", .setAttr "code.class", .setAttr "code.module",
   .setAttr "telemetry.kind", .setAttr "telemetry.sdk"]

/-- Body of the class-instrumentor `wrapper` once telemetry was resolved and
found usable (class_instrumentor.py lines 49-158).  `spanName` is the
early-bound `span_name` argument of `make_wrapper`; `lateQ` is the value of
the late-bound closure variable `qualified_name` (from which `counter_name`
and `histogram_name` and the log messages are derived).  `body` is the call
of `orig_fn`, which itself reports the sink operations it performed (empty
for a plain method, non-empty when the method is itself a wrapper). -/
def class_wrapper_body {α : Type} (t : Tele) (spanName lateQ : String)
    (body : Unit → Except PyErr α × List TeleOp) : Except PyErr α × List TeleOp :=
  let counterName := "telemetry.class." ++ lateQ ++ ".calls"
  let histName := "telemetry.class." ++ lateQ ++ ".duration_ms"
  let errMsg := "Error in " ++ lateQ
  match t.beh (.startSpan spanName) with
  | some e =>
    (.error e, .startSpan spanName :: class_error_path t.beh counterName histName errMsg false)
  | none =>
    match runOps t.beh classAttrOps with
    | (some e, l1) =>
      (.error e,
        .startSpan spanName :: (l1 ++ class_error_path t.beh counterName histName errMsg true))
    | (none, l1) =>
      match body () with
      | (.error e, lb) =>
        (.error e,
          .startSpan spanName ::
            (l1 ++ lb ++ class_error_path t.beh counterName histName errMsg true))
      | (.ok result, lb) =>
        match t.beh (.setAttr "duration_ms") with
        | some e =>
          (.error e,
            .startSpan spanName ::
              (l1 ++ lb ++ [.setAttr "duration_ms"] ++
                class_error_path t.beh counterName histName errMsg true))
        | none =>
          (.ok result,
            .startSpan spanName ::
              (l1 ++ lb ++ [.setAttr "duration_ms"] ++
                guardedOps t.beh
                  [.incCounter counterName "success", .recHistogram histName "success"] ++
                guardedOps t.beh [.logInfo (lateQ ++ " executed successfully")]))

/-- A method slot of a Python class: its callable (reporting the sink
operations a call performs) and its optional `_telemetry` attribute
(`none` = attribute absent; `some v` = attribute present with value `v`,
where `v` itself may be Python `None`). -/
structure PyMethod (σ α : Type) where
  call : σ → Except PyErr α × List TeleOp
  telemetryAttr : Option (Option Tele)

/-- A Python class as the instrumentor sees it: its `__name__` and its
function members in `inspect.getmembers` order. -/
structure PyClass (σ α : Type) where
  name : String
  methods : List (String × PyMethod σ α)

/-- Translation of `make_wrapper(orig_fn, span_name, method_name=name)` from
class_instrumentor.py lines 39-163: resolves telemetry as
`getattr(orig_fn, "_telemetry", telemetry)`, runs the original directly
when it is `None` or lacks a truthy `traces` capability, and otherwise runs
`class_wrapper_body`.  The produced wrapper carries `_telemetry = telemetry`. -/
def make_wrapper {σ α : Type} (spanName lateQ : String) (orig : PyMethod σ α)
    (telemetry : Option Tele) : PyMethod σ α :=
  { call := fun x =>
      let tele := orig.telemetryAttr.getD telemetry
      match tele with
      | none => orig.call x
      | some t =>
        if !t.hasTraces then orig.call x
        else class_wrapper_body t spanName lateQ (fun _ => orig.call x),
    telemetryAttr := some telemetry }

/-- Python `name.startswith("_")`: whether the name begins with an
underscore (the private/dunder convention the instrumentor skips). -/
def startswith_underscore (name : String) : Bool :=
  match name.toList with
  | [] => false
  | c :: _ => c == '_'

/-- Translation of `instrument_class(cls, telemetry)` from
class_instrumentor.py lines
13-169.  There is no idempotency marker: every public (non-underscore)
function member is unconditionally replaced by a fresh wrapper.  The loop
variables `qualified_name` / `counter_name` / `histogram_name` are read by
the wrappers through the closure at call time and therefore hold the values
of the **last** public member enumerated (Python late binding), while
`span_name` and `method_name` are passed as arguments and stay per-method. -/
def instrument_class {σ α : Type} (cls : PyClass σ α) (telemetry : Option Tele) : PyClass σ α :=
  let publics := cls.methods.filter (fun nm => !startswith_underscore nm.1)
  match publics.getLast? with
  | none => cls
  | some lastNm =>
    let lateQ := cls.name ++ "." ++ lastNm.1
    { cls with
      methods := cls.methods.map (fun nm =>
        if startswith_underscore nm.1 then nm
        else
          (nm.1,
            make_wrapper ("telemetry.class." ++ cls.name ++ "." ++ nm.1) lateQ nm.2 telemetry)) }

/-- Look up a method by name on a class and invoke it. -/
def callMethod {σ α : Type} (cls : PyClass σ α) (n : String) (x : σ) :
    Option (Except PyErr α × List TeleOp) :=
  (dictGet cls.methods n).map (fun m => m.call x)

/-- Whether a sink operation is a metric counter increment. -/
def isInc : TeleOp → Bool
  | .incCounter _ _ => true
  | _ => false

/-- Number of metric counter increments in a list of sink operations. -/
def countInc (l : List TeleOp) : Nat := (l.filter isInc).length

/-- The object reachable through a callable's `__wrapped__` attribute, with
its optional `_telemetry` attribute. -/
structure InnerFn where
  telemetryAttr : Option (Option Tele)

/-- The attribute surface of a callable as `_resolve_telemetry` probes it:
an optional `_telemetry` attribute and an optional `__wrapped__` attribute. -/
structure FnObj where
  telemetryAttr : Option (Option Tele)
  wrappedAttr : Option InnerFn

/-- The attribute surface of the first positional argument
(`args[0] if args else None`), as the resolver probes it. -/
structure SelfObj where
  telemetryAttr : Option (Option Tele)

/-- Translation of `_resolve_telemetry(self_or_fn, fn)` from decorators.py
lines 21-35.
The third branch translates the source line
`return getattr(fn.__wrapped__._telemetry)` faithfully: `getattr` is called
with a single argument, which in Python raises
`TypeError: getattr expected at least 2 arguments, got 1` whenever that
branch is reached (the branch is only entered when `fn.__wrapped__` carries
a `_telemetry` attribute, so the attribute access itself succeeds). -/
def resolve_telemetry (self_or_fn : Option SelfObj) (fn : Option FnObj) :
    Except PyErr (Option Tele) :=
  match (match self_or_fn with
         | some s => s.telemetryAttr
         | none => none) with
  | some t => .ok t
  | none =>
    match fn with
    | none => .ok none
    | some f =>
      match f.telemetryAttr with
      | some t => .ok t
      | none =>
        match f.wrappedAttr with
        | some w =>
          match w.telemetryAttr with
          | some _ => .error ⟨"TypeError", "getattr expected at least 2 arguments, got 1"⟩
          | none => .ok none
        | none => .ok none

/-- Attribute keys the decorator template sets on the span
(decorators.py lines 131-136 via the loop at line 59). -/
def decAttrOps : List TeleOp :=
  [.setAttr "code.function", .setAttr "code.module",
   .setAttr "telemetry.kind", .setAttr "telemetry.sdk"]

/-- The `except Exception as e:` block of `_unified_trace_wrapper`
(decorators.py lines 83-113).  Unlike the class instrumentor, **nothing
here is guarded**: the span error operations, the error metrics and the
error log run bare inside the except block, so if any of them raises, that
new error propagates to the application instead of the original one. -/
def dec_error_path {α : Type} (beh : TeleOp → Option PyErr)
    (counterName histName errMsg : String) (spanPresent : Bool) (e : PyErr) :
    Except PyErr α × List TeleOp :=
  let ops := (if spanPresent then [TeleOp.recordException, TeleOp.setStatus] else []) ++
    [TeleOp.incCounter counterName "error", TeleOp.recHistogram histName "error",
     TeleOp.logError errMsg]
  match runOps beh ops with
  | (some e2, l) => (.error e2, l)
  | (none, l) => (.error e, l)

/-- Translation of `_unified_trace_wrapper(fn, tele, span_name, base_attrs)` from
decorators.py lines 41-113.  The success-path metric and log emissions
(lines 68-79) are also unguarded: a failure there is caught by the outer
`except`, routed through `dec_error_path`, and surfaces to the caller. -/
def unified_trace_wrapper {α : Type} (t : Tele) (spanName : String)
    (body : Unit → Except PyErr α) : Except PyErr α × List TeleOp :=
  let counterName := spanName ++ ".calls"
  let histName := spanName ++ ".duration_ms"
  let errMsg := "Error in " ++ spanName
  match t.beh (.startSpan spanName) with
  | some e =>
    let r := dec_error_path (α := α) t.beh counterName histName errMsg false e
    (r.1, .startSpan spanName :: r.2)
  | none =>
    match runOps t.beh decAttrOps with
    | (some e, l1) =>
      let r := dec_error_path (α := α) t.beh counterName histName errMsg true e
      (r.1, .startSpan spanName :: (l1 ++ r.2))
    | (none, l1) =>
      match body () with
      | .error e =>
        let r := dec_error_path (α := α) t.beh counterName histName errMsg true e
        (r.1, .startSpan spanName :: (l1 ++ r.2))
      | .ok result =>
        match runOps t.beh
            [.setAttr "duration_ms", .incCounter counterName "success",
             .recHistogram histName "success",
             .logInfo (spanName ++ " executed successfully")] with
        | (some e, l2) =>
          let r := dec_error_path (α := α) t.beh counterName histName errMsg true e
          (r.1, .startSpan spanName :: (l1 ++ l2 ++ r.2))
        | (none, l2) => (.ok result, .startSpan spanName :: (l1 ++ l2))

/-- A function being decorated by `@trace`: its `__name__`, its callable
payload, and the attribute surface `_resolve_telemetry` probes.  Invocation
arguments are modelled by `σ`; the resolver's view of the first positional
argument is passed separately to `trace_wrapper`. -/
structure DecFn (σ α : Type) where
  name : String
  call : σ → Except PyErr α
  attrs : FnObj

/-- The `wrapper` produced by the `@trace` decorator (decorators.py lines
119-146): resolve telemetry (a resolver exception propagates to the
caller), and either run the unified template or fall back to calling the
function directly. -/
def trace_wrapper {σ α : Type} (nameArg : Option String) (fn : DecFn σ α)
    (selfArg : Option SelfObj) (x : σ) : Except PyErr α × List TeleOp :=
  match resolve_telemetry selfArg (some fn.attrs) with
  | .error e => (.error e, [])
  | .ok tele =>
    let spanName := "telemetry.decorator." ++ (nameArg.getD fn.name)
    match tele with
    | some t =>
      if t.hasTraces then unified_trace_wrapper t spanName (fun _ => fn.call x)
      else (fn.call x, [])
    | none => (fn.call x, [])

/-- A telemetry context whose master switch is on, with no rules, a live
tracer, and sinks that always succeed. -/
def teleOK : Tele := ⟨true, none, true, fun _ => none⟩

/-- A telemetry context whose master trace switch is off but whose tracer
and sinks are live. -/
def teleOff : Tele := ⟨false, none, true, fun _ => none⟩

/-- The error a broken metrics sink raises. -/
def metricsDownErr : PyErr := ⟨"RuntimeError", "sink down"⟩

/-- Sink behaviour where the metrics counter increment raises on every
invocation and every other sink operation succeeds. -/
def metricsDownBeh : TeleOp → Option PyErr := fun op =>
  match op with
  | .incCounter _ _ => some metricsDownErr
  | _ => none

/-- A telemetry context with a live tracer whose counter increments always
raise. -/
def teleMetricsDown : Tele := ⟨true, none, true, metricsDownBeh⟩

/-- The HTTP rule set of the spec's decision-engine example. -/
def httpRulesTele : Tele :=
  ⟨true, some [("http", [("include_routes", ["/api/*"]), ("exclude_routes", ["/api/health"])])],
   false, fun _ => none⟩

/-- The business rule set of the spec's exclude-overrides-include example. -/
def bizRulesTele : Tele :=
  ⟨true, some [("business", [("include_methods", ["get_*"]), ("exclude_methods", ["get_secret"])])],
   false, fun _ => none⟩

/-- A plain public method returning `7` with no sink activity and no
`_telemetry` attribute. -/
def svcMethod : PyMethod Unit Nat := ⟨fun _ => (.ok 7, []), none⟩

/-- A one-method class used as a concrete instrumentation target. -/
def svcClass : PyClass Unit Nat := ⟨"Svc", [("run", svcMethod)]⟩

/-- A decorated function returning `42`, bound to the broken-metrics
telemetry context. -/
def decFnOk : DecFn Unit Nat := ⟨"g", fun _ => .ok 42, ⟨some (some teleMetricsDown), none⟩⟩

/-- A decorated function raising `ValueError: boom`, bound to the
broken-metrics telemetry context. -/
def decFnBoom : DecFn Unit Nat :=
  ⟨"g", fun _ => .error ⟨"ValueError", "boom"⟩, ⟨some (some teleMetricsDown), none⟩⟩

/-- A decorated function with no telemetry attached anywhere: resolution
yields `None`. -/
def decFnPlain : DecFn Unit Nat := ⟨"g", fun _ => .ok 5, ⟨none, none⟩⟩

/-- A decorated function bound to a healthy telemetry context. -/
def decFnLive : DecFn Unit Nat := ⟨"g", fun _ => .ok 5, ⟨some (some teleOK), none⟩⟩

theorem runOps_none {beh : TeleOp → Option PyErr} (h : ∀ op, beh op = none) :
    ∀ l, runOps beh l = (none, l) := by
  intro l
  induction l with
  | nil => rfl
  | cons op rest ih => simp [runOps, h, ih]

theorem guardedOps_none {beh : TeleOp → Option PyErr} (h : ∀ op, beh op = none)
    (l : List TeleOp) : guardedOps beh l = l := by
  simp [guardedOps, runOps_none h]

theorem dictGet_some_not_nil {β : Type} {d : List (String × β)} {k : String} {v : β}
    (h : dictGet d k = some v) : d.isEmpty = false := by
  cases d with
  | nil => simp [dictGet] at h
  | cons a rest => simp

theorem countInc_append (a b : List TeleOp) : countInc (a ++ b) = countInc a + countInc b := by
  simp [countInc, List.filter_append]

theorem class_wrapper_body_eq_ok {α : Type} (t : Tele) (sn q : String)
    (body : Unit → Except PyErr α × List TeleOp) (v : α) (lb : List TeleOp)
    (hb : ∀ op, t.beh op = none) (hbody : body () = (.ok v, lb)) :
    class_wrapper_body t sn q body =
      (.ok v,
        .startSpan sn ::
          (classAttrOps ++ lb ++ [.setAttr "duration_ms"] ++
            [.incCounter ("telemetry.class." ++ q ++ ".calls") "success",
             .recHistogram ("telemetry.class." ++ q ++ ".duration_ms") "success"] ++
            [.logInfo (q ++ " executed successfully")])) := by
  simp [class_wrapper_body, hb, runOps_none hb, guardedOps_none hb, hbody]

theorem class_wrapper_body_head {α : Type} (t : Tele) (sn q : String)
    (body : Unit → Except PyErr α × List TeleOp) :
    (class_wrapper_body t sn q body).2.head? = some (.startSpan sn) := by
  unfold class_wrapper_body
  repeat' split
  all_goals rfl

/-- C6 — Master switch: `should_trace` is false whenever the context is
null or its master `enable_traces` flag is false, for every call
descriptor and independently of any configured rules. -/
theorem should_trace_master_switch (tele : Option Tele) (ctx : CallDescriptor)
    (h : tele = none ∨ ∃ t, tele = some t ∧ t.enable_traces = false) :
    should_trace tele ctx = false := by
  rcases h with h | ⟨t, rfl, ht⟩
  · subst h; rfl
  · simp [should_trace, ht]

theorem should_trace_master_switch_witness :
    should_trace none ⟨some "http", some "/api/users", none⟩ = false ∧
      should_trace (some teleOff) ⟨some "business", none, some "get_all"⟩ = false :=
  ⟨should_trace_master_switch none _ (Or.inl rfl),
   should_trace_master_switch (some teleOff) _ (Or.inr ⟨teleOff, rfl, rfl⟩)⟩

/-- C7 — Fail-open defaults: with the master switch on, `should_trace` is
true when no `trace_rules` are configured, true when the rule set has no
entry for the descriptor's layer, and true for any layer other than
`"http"` and `"business"` even when rules exist for that layer. -/
theorem should_trace_fail_open (t : Tele) (ctx : CallDescriptor)
    (hon : t.enable_traces = true) :
    (t.trace_rules = none → should_trace (some t) ctx = true) ∧
    (∀ rules l, t.trace_rules = some rules → ctx.layer = some l →
      dictGet rules l = none → should_trace (some t) ctx = true) ∧
    (∀ rules l lr, t.trace_rules = some rules → ctx.layer = some l →
      dictGet rules l = some lr → l ≠ "http" → l ≠ "business" →
      should_trace (some t) ctx = true) := by
  refine ⟨fun hr => by simp [should_trace, hon, hr], ?_, ?_⟩
  · intro rules l hr hl hget
    simp [should_trace, hon, hr, hl, hget]
  · intro rules l lr hr hl hget hh hb
    simp [should_trace, hon, hr, hl, hget, dictGet_some_not_nil hget, hh, hb]

theorem should_trace_fail_open_witness :
    should_trace (some teleOK) ⟨some "http", some "/any", some "GET"⟩ = true ∧
      should_trace (some httpRulesTele) ⟨some "business", none, some "anything"⟩ = true ∧
      should_trace
        (some ⟨true, some [("db", [("include_routes", ["x"])])], false, fun _ => none⟩)
        ⟨some "db", some "/q", none⟩ = true :=
  ⟨(should_trace_fail_open teleOK _ rfl).1 rfl,
   (should_trace_fail_open httpRulesTele _ rfl).2.1 _ "business" rfl rfl rfl,
   (should_trace_fail_open _ _ rfl).2.2 _ "db" _ rfl rfl rfl
     (by decide) (by decide)⟩

theorem http_decision_include_fail {lr : List (String × List String)} {route : String}
    (hne : (dictGet lr "include_routes").getD [] ≠ [])
    (hno : ((dictGet lr "include_routes").getD []).any (fun p => fnmatch route p) = false) :
    http_decision lr route = false := by
  have h1 : ((dictGet lr "include_routes").getD []).isEmpty = false := by
    cases hcase : (dictGet lr "include_routes").getD [] with
    | nil => exact absurd hcase hne
    | cons a l => rfl
  simp [http_decision, h1, hno]

theorem http_decision_exclude_hit {lr : List (String × List String)} {route : String}
    (h : ((dictGet lr "exclude_routes").getD []).any (fun p => fnmatch route p) = true) :
    http_decision lr route = false := by
  simp only [http_decision]
  split
  · rfl
  · simp [h]

theorem business_decision_include_fail {lr : List (String × List String)} {method : String}
    (hne : (dictGet lr "include_methods").getD [] ≠ [])
    (hno : ((dictGet lr "include_methods").getD []).any (fun p => fnmatch method p) = false) :
    business_decision lr method = false := by
  have h1 : ((dictGet lr "include_methods").getD []).isEmpty = false := by
    cases hcase : (dictGet lr "include_methods").getD [] with
    | nil => exact absurd hcase hne
    | cons a l => rfl
  simp [business_decision, h1, hno]

theorem business_decision_exclude_hit {lr : List (String × List String)} {method : String}
    (h : ((dictGet lr "exclude_methods").getD []).any (fun p => fnmatch method p) = true) :
    business_decision lr method = false := by
  simp only [business_decision]
  split
  · rfl
  · simp [h]

theorem should_trace_http_eq {t : Tele} {rules : List (String × List (String × List String))}
    {lr : List (String × List String)} (route : String) (m : Option String)
    (hon : t.enable_traces = true) (hr : t.trace_rules = some rules)
    (hget : dictGet rules "http" = some lr) (hne : lr.isEmpty = false) :
    should_trace (some t) ⟨some "http", some route, m⟩ = http_decision lr route := by
  simp [should_trace, hon, hr, hget, dictGet_some_not_nil hget, hne]

theorem should_trace_business_eq {t : Tele} {rules : List (String × List (String × List String))}
    {lr : List (String × List String)} (r : Option String) (method : String)
    (hon : t.enable_traces = true) (hr : t.trace_rules = some rules)
    (hget : dictGet rules "business" = some lr) (hne : lr.isEmpty = false) :
    should_trace (some t) ⟨some "business", r, some method⟩ = business_decision lr method := by
  simp [should_trace, hon, hr, hget, dictGet_some_not_nil hget, hne]

/-- C8 — Two-stage include/exclude matching: for layer `"http"` the route
must glob-match some `include_routes` pattern when that list is present and
non-empty (else false) and any `exclude_routes` match forces false even if
an include pattern matched; for layer `"business"` the same holds of the
method name against `include_methods` / `exclude_methods`.  The spec's
concrete examples evaluate as stated: with the example HTTP rules the
result is true for `/api/users`, false for `/api/health`, false for
`/other`; with the example business rules, true for `get_all`, false for
`get_secret`. -/
theorem should_trace_include_exclude :
    (should_trace (some httpRulesTele) ⟨some "http", some "/api/users", none⟩ = true ∧
      should_trace (some httpRulesTele) ⟨some "http", some "/api/health", none⟩ = false ∧
      should_trace (some httpRulesTele) ⟨some "http", some "/other", none⟩ = false ∧
      should_trace (some bizRulesTele) ⟨some "business", none, some "get_all"⟩ = true ∧
      should_trace (some bizRulesTele) ⟨some "business", none, some "get_secret"⟩ = false) ∧
    (∀ (t : Tele) (rules : List (String × List (String × List String)))
        (lr : List (String × List String)) (route : String) (m : Option String),
      t.enable_traces = true → t.trace_rules = some rules →
      dictGet rules "http" = some lr → lr.isEmpty = false →
      ((dictGet lr "include_routes").getD [] ≠ [] →
        ((dictGet lr "include_routes").getD []).any (fun p => fnmatch route p) = false →
        should_trace (some t) ⟨some "http", some route, m⟩ = false) ∧
      (((dictGet lr "exclude_routes").getD []).any (fun p => fnmatch route p) = true →
        should_trace (some t) ⟨some "http", some route, m⟩ = false)) ∧
    (∀ (t : Tele) (rules : List (String × List (String × List String)))
        (lr : List (String × List String)) (method : String) (r : Option String),
      t.enable_traces = true → t.trace_rules = some rules →
      dictGet rules "business" = some lr → lr.isEmpty = false →
      ((dictGet lr "include_methods").getD [] ≠ [] →
        ((dictGet lr "include_methods").getD []).any (fun p => fnmatch method p) = false →
        should_trace (some t) ⟨some "business", r, some method⟩ = false) ∧
      (((dictGet lr "exclude_methods").getD []).any (fun p => fnmatch method p) = true →
        should_trace (some t) ⟨some "business", r, some method⟩ = false)) := by
  refine ⟨by decide, ?_, ?_⟩
  · intro t rules lr route m hon hr hget hne
    exact ⟨fun h1 h2 =>
        (should_trace_http_eq route m hon hr hget hne).trans
          (http_decision_include_fail h1 h2),
      fun h =>
        (should_trace_http_eq route m hon hr hget hne).trans
          (http_decision_exclude_hit h)⟩
  · intro t rules lr method r hon hr hget hne
    exact ⟨fun h1 h2 =>
        (should_trace_business_eq r method hon hr hget hne).trans
          (business_decision_include_fail h1 h2),
      fun h =>
        (should_trace_business_eq r method hon hr hget hne).trans
          (business_decision_exclude_hit h)⟩

theorem should_trace_include_exclude_witness :
    should_trace (some httpRulesTele) ⟨some "http", some "/other", none⟩ = false ∧
      should_trace (some bizRulesTele) ⟨some "business", none, some "get_secret"⟩ = false :=
  ⟨(should_trace_include_exclude.2.1 httpRulesTele _ _ "/other" none rfl rfl rfl rfl).1
      (by decide) (by decide),
   (should_trace_include_exclude.2.2 bizRulesTele _ _ "get_secret" none rfl rfl rfl rfl).2
      (by decide)⟩

/-- C10 — Empty collections behave as absent: with the master switch on, a
layer whose rule object is the empty dict is allowed exactly like a layer
with no configured rules, and an empty `include_routes` /
`include_methods` list gives the same decision as leaving the include list
out entirely. -/
theorem should_trace_empty_as_absent :
    (∀ (t : Tele) (rules : List (String × List (String × List String))) (l : String)
        (ctx : CallDescriptor),
      t.enable_traces = true → t.trace_rules = some rules → ctx.layer = some l →
      dictGet rules l = some [] → should_trace (some t) ctx = true) ∧
    (∀ (b hT : Bool) (beh : TeleOp → Option PyErr) (E : List String) (route m : Option String),
      should_trace
          (some ⟨b, some [("http", [("include_routes", []), ("exclude_routes", E)])], hT, beh⟩)
          ⟨some "http", route, m⟩ =
        should_trace (some ⟨b, some [("http", [("exclude_routes", E)])], hT, beh⟩)
          ⟨some "http", route, m⟩) ∧
    (∀ (b hT : Bool) (beh : TeleOp → Option PyErr) (E : List String) (route m : Option String),
      should_trace
          (some ⟨b, some [("business", [("include_methods", []), ("exclude_methods", E)])], hT,
            beh⟩)
          ⟨some "business", route, m⟩ =
        should_trace (some ⟨b, some [("business", [("exclude_methods", E)])], hT, beh⟩)
          ⟨some "business", route, m⟩) := by
  refine ⟨?_, ?_, ?_⟩
  · intro t rules l ctx hon hr hl hget
    simp [should_trace, hon, hr, hl, hget, dictGet_some_not_nil hget]
  · intro b hT beh E route m
    cases b <;> rfl
  · intro b hT beh E route m
    cases b <;> rfl

theorem should_trace_empty_as_absent_witness :
    should_trace (some ⟨true, some [("http", [])], false, fun _ => none⟩)
        ⟨some "http", some "/api/users", none⟩ = true ∧
      should_trace
          (some ⟨true, some [("http", [("include_routes", []), ("exclude_routes", ["/x"])])],
            false, fun _ => none⟩)
          ⟨some "http", some "/api/users", none⟩ =
        should_trace
          (some ⟨true, some [("http", [("exclude_routes", ["/x"])])], false, fun _ => none⟩)
          ⟨some "http", some "/api/users", none⟩ :=
  ⟨should_trace_empty_as_absent.1 _ _ "http" _ rfl rfl rfl rfl,
   should_trace_empty_as_absent.2.1 true false (fun _ => none) ["/x"] (some "/api/users") none⟩

theorem unified_trace_wrapper_ok {α : Type} (t : Tele) (sn : String)
    (body : Unit → Except PyErr α) (v : α)
    (hb : ∀ op, t.beh op = none) (hbody : body () = .ok v) :
    (unified_trace_wrapper t sn body).1 = .ok v := by
  simp [unified_trace_wrapper, hb, runOps_none hb, hbody]

/-- C1 — Transparency: a wrapped callable returns exactly what the original
returns, both when telemetry is unavailable or disabled (the wrapper calls
the original directly, emitting nothing) and when telemetry is enabled and
every sink call succeeds — for the class-instrumentor wrapper and for the
`@trace` decorator wrapper alike. -/
theorem wrapped_call_transparency {σ α : Type}
    (spanName lateQ : String) (orig : PyMethod σ α) (telemetry : Option Tele)
    (nameArg : Option String) (fn : DecFn σ α) (selfArg : Option SelfObj)
    (x : σ) (v : α) (lb : List TeleOp) (t : Tele) :
    ((orig.telemetryAttr.getD telemetry = none ∨
        (orig.telemetryAttr.getD telemetry = some t ∧ t.hasTraces = false)) →
      (make_wrapper spanName lateQ orig telemetry).call x = orig.call x) ∧
    (orig.telemetryAttr.getD telemetry = some t → t.hasTraces = true →
      (∀ op, t.beh op = none) → orig.call x = (.ok v, lb) →
      ((make_wrapper spanName lateQ orig telemetry).call x).1 = .ok v) ∧
    ((resolve_telemetry selfArg (some fn.attrs) = .ok none ∨
        (resolve_telemetry selfArg (some fn.attrs) = .ok (some t) ∧ t.hasTraces = false)) →
      trace_wrapper nameArg fn selfArg x = (fn.call x, [])) ∧
    (resolve_telemetry selfArg (some fn.attrs) = .ok (some t) → t.hasTraces = true →
      (∀ op, t.beh op = none) → fn.call x = .ok v →
      (trace_wrapper nameArg fn selfArg x).1 = .ok v) := by
  refine ⟨?_, ?_, ?_, ?_⟩
  · rintro (h | ⟨h, hT⟩)
    · simp [make_wrapper, h]
    · simp [make_wrapper, h, hT]
  · intro h hT hb hc
    rw [show (make_wrapper spanName lateQ orig telemetry).call x =
        class_wrapper_body t spanName lateQ (fun _ => orig.call x) by
      simp [make_wrapper, h, hT]]
    rw [class_wrapper_body_eq_ok t spanName lateQ _ v lb hb (by simpa using hc)]
  · rintro (h | ⟨h, hT⟩)
    · simp [trace_wrapper, h]
    · simp [trace_wrapper, h, hT]
  · intro h hT hb hc
    rw [show trace_wrapper nameArg fn selfArg x =
        unified_trace_wrapper t ("telemetry.decorator." ++ nameArg.getD fn.name)
          (fun _ => fn.call x) by
      simp [trace_wrapper, h, hT]]
    exact unified_trace_wrapper_ok t _ _ v hb (by simpa using hc)

theorem wrapped_call_transparency_witness :
    (make_wrapper "s" "q" svcMethod none).call () = svcMethod.call () ∧
      ((make_wrapper "s" "q" svcMethod (some teleOK)).call ()).1 = .ok 7 ∧
      trace_wrapper none decFnPlain none () = (decFnPlain.call (), []) ∧
      (trace_wrapper none decFnLive none ()).1 = .ok 5 :=
  ⟨(wrapped_call_transparency "s" "q" svcMethod none none decFnPlain none () 7 [] teleOK).1
      (Or.inl rfl),
   (wrapped_call_transparency "s" "q" svcMethod (some teleOK) none decFnPlain none () 7 []
      teleOK).2.1 rfl rfl (fun _ => rfl) rfl,
   (wrapped_call_transparency "s" "q" svcMethod none none decFnPlain none () 5 [] teleOK).2.2.1
      (Or.inl rfl),
   (wrapped_call_transparency "s" "q" svcMethod none none decFnLive none () 5 [] teleOK).2.2.2
      rfl rfl (fun _ => rfl) rfl⟩

/-- C2 — Error passthrough fails on the decorator path when telemetry is
failing: the original callable raises `ValueError: boom`, but because the
error-path metric emission in `_unified_trace_wrapper` is unguarded and the
metrics sink raises, the wrapped call raises the sink's
`RuntimeError: sink down` instead of the original error. -/
theorem error_passthrough_violated_by_decorator :
    decFnBoom.call () = .error ⟨"ValueError", "boom"⟩ ∧
      (trace_wrapper none decFnBoom none ()).1 = .error metricsDownErr ∧
      metricsDownErr ≠ PyErr.mk "ValueError" "boom" :=
  ⟨rfl, rfl, by decide⟩

/-- C3 — Telemetry-failure isolation fails on the decorator path: with a
metrics sink whose counter increment raises on every invocation, a
decorated call whose original returns `42` does not return `42` — the
unguarded success-path increment raises, the unguarded error-path increment
raises again, and the sink's error escapes to the caller. -/
theorem metrics_failure_breaks_decorated_call :
    decFnOk.call () = .ok 42 ∧
      (∀ n o, teleMetricsDown.beh (.incCounter n o) = some metricsDownErr) ∧
      (trace_wrapper none decFnOk none ()).1 = .error metricsDownErr :=
  ⟨rfl, fun _ _ => rfl, rfl⟩

/-- C9 — Telemetry-context resolution is not total: when the callable has no
`_telemetry` of its own but carries a `__wrapped__` whose target holds a
`_telemetry` attribute, `_resolve_telemetry` reaches the one-argument
`getattr` call and raises `TypeError` instead of returning the context. -/
theorem resolve_telemetry_raises_on_wrapped :
    resolve_telemetry none (some ⟨none, some ⟨some none⟩⟩) =
        .error ⟨"TypeError", "getattr expected at least 2 arguments, got 1"⟩ ∧
      resolve_telemetry none (some ⟨none, some ⟨some (some teleOK)⟩⟩) =
        .error ⟨"TypeError", "getattr expected at least 2 arguments, got 1"⟩ :=
  ⟨rfl, rfl⟩

/-- C4 counterexample — `instrument_class` has no idempotency marker:
applying it twice to a one-method class and calling the method once
produces two counter increments (and still the right return value), where
the claim predicates exactly one. -/
theorem instrument_class_twice_emits_twice :
    (callMethod (instrument_class (instrument_class svcClass (some teleOK)) (some teleOK))
          "run" ()).map (fun r => (r.1, countInc r.2)) = some (.ok 7, 2) ∧
      (callMethod (instrument_class svcClass (some teleOK)) "run" ()).map
          (fun r => (r.1, countInc r.2)) = some (.ok 7, 1) :=
  ⟨rfl, rfl⟩

theorem countInc_class_wrapper_ok {α : Type} (t : Tele) (sn q : String)
    (body : Unit → Except PyErr α × List TeleOp) (v : α) (lb : List TeleOp)
    (hb : ∀ op, t.beh op = none) (hbody : body () = (.ok v, lb)) :
    (class_wrapper_body t sn q body).1 = .ok v ∧
      countInc (class_wrapper_body t sn q body).2 = countInc lb + 1 := by
  rw [class_wrapper_body_eq_ok t sn q body v lb hb hbody]
  refine ⟨rfl, ?_⟩
  simp [countInc_append, countInc, isInc, classAttrOps]

/-- C4 (amended) — double wrapping: `instrument_class` never checks a
marker, so instrumenting a class twice wraps each public method twice; a
call to a method of the twice-instrumented class performs two metric
counter increments per invocation (2N for N calls) instead of one, while a
single instrumentation performs exactly one. -/
theorem instrument_class_not_idempotent {σ α : Type} (cn n : String) (m : PyMethod σ α)
    (t : Tele) (x : σ) (v : α)
    (hn : startswith_underscore n = false) (hm : m.telemetryAttr = none)
    (hT : t.hasTraces = true) (hb : ∀ op, t.beh op = none)
    (hc : m.call x = (.ok v, [])) :
    (callMethod (instrument_class ⟨cn, [(n, m)]⟩ (some t)) n x).map
        (fun r => (r.1, countInc r.2)) = some (.ok v, 1) ∧
      (callMethod (instrument_class (instrument_class ⟨cn, [(n, m)]⟩ (some t)) (some t)) n x).map
        (fun r => (r.1, countInc r.2)) = some (.ok v, 2) := by
  have hins : instrument_class (⟨cn, [(n, m)]⟩ : PyClass σ α) (some t) =
      ⟨cn, [(n, make_wrapper ("telemetry.class." ++ cn ++ "." ++ n) (cn ++ "." ++ n) m
        (some t))]⟩ := by
    simp [instrument_class, hn]
  have hcall1 : (make_wrapper ("telemetry.class." ++ cn ++ "." ++ n) (cn ++ "." ++ n) m
      (some t)).call x =
      class_wrapper_body t ("telemetry.class." ++ cn ++ "." ++ n) (cn ++ "." ++ n)
        (fun _ => m.call x) := by
    simp [make_wrapper, hm, hT]
  have h1 := countInc_class_wrapper_ok t ("telemetry.class." ++ cn ++ "." ++ n)
    (cn ++ "." ++ n) (fun _ => m.call x) v [] hb (by simpa using hc)
  rw [← hcall1] at h1
  have hins2 : instrument_class
      (⟨cn, [(n, make_wrapper ("telemetry.class." ++ cn ++ "." ++ n) (cn ++ "." ++ n) m
        (some t))]⟩ : PyClass σ α) (some t) =
      ⟨cn, [(n, make_wrapper ("telemetry.class." ++ cn ++ "." ++ n) (cn ++ "." ++ n)
        (make_wrapper ("telemetry.class." ++ cn ++ "." ++ n) (cn ++ "." ++ n) m (some t))
        (some t))]⟩ := by
    simp [instrument_class, hn]
  have hcall2 : (make_wrapper ("telemetry.class." ++ cn ++ "." ++ n) (cn ++ "." ++ n)
      (make_wrapper ("telemetry.class." ++ cn ++ "." ++ n) (cn ++ "." ++ n) m (some t))
      (some t)).call x =
      class_wrapper_body t ("telemetry.class." ++ cn ++ "." ++ n) (cn ++ "." ++ n)
        (fun _ => (make_wrapper ("telemetry.class." ++ cn ++ "." ++ n) (cn ++ "." ++ n) m
          (some t)).call x) := by
    simp [make_wrapper, hT]
  have hbody2 : (fun _ : Unit => (make_wrapper ("telemetry.class." ++ cn ++ "." ++ n)
      (cn ++ "." ++ n) m (some t)).call x) () =
      (.ok v, ((make_wrapper ("telemetry.class." ++ cn ++ "." ++ n) (cn ++ "." ++ n) m
        (some t)).call x).2) := by
    rw [← h1.1]
  have h2 := countInc_class_wrapper_ok t ("telemetry.class." ++ cn ++ "." ++ n)
    (cn ++ "." ++ n)
    (fun _ : Unit => (make_wrapper ("telemetry.class." ++ cn ++ "." ++ n) (cn ++ "." ++ n) m
      (some t)).call x) v
    ((make_wrapper ("telemetry.class." ++ cn ++ "." ++ n) (cn ++ "." ++ n) m
      (some t)).call x).2 hb hbody2
  rw [← hcall2] at h2
  have hy1 : countInc ((make_wrapper ("telemetry.class." ++ cn ++ "." ++ n) (cn ++ "." ++ n) m
      (some t)).call x).2 = 1 := by
    rw [h1.2]; rfl
  have hy2 : countInc ((make_wrapper ("telemetry.class." ++ cn ++ "." ++ n) (cn ++ "." ++ n)
      (make_wrapper ("telemetry.class." ++ cn ++ "." ++ n) (cn ++ "." ++ n) m (some t))
      (some t)).call x).2 = 2 := by
    rw [h2.2, hy1]
  constructor
  · rw [hins]
    simp [callMethod, dictGet, h1.1, hy1]
  · rw [hins, hins2]
    simp [callMethod, dictGet, h2.1, hy2]

theorem instrument_class_not_idempotent_witness :
    (callMethod (instrument_class ⟨"Svc", [("run", svcMethod)]⟩ (some teleOK)) "run" ()).map
        (fun r => (r.1, countInc r.2)) = some (.ok 7, 1) ∧
      (callMethod
          (instrument_class (instrument_class ⟨"Svc", [("run", svcMethod)]⟩ (some teleOK))
            (some teleOK)) "run" ()).map
        (fun r => (r.1, countInc r.2)) = some (.ok 7, 2) :=
  instrument_class_not_idempotent "Svc" "run" svcMethod teleOK () 7 rfl rfl rfl
    (fun _ => rfl) rfl

/-- C5 counterexample — the class-instrumentor wrapper never consults
`should_trace`: with a context whose master switch makes `should_trace`
false for the method's business descriptor but whose tracer is live, the
instrumented method still starts a span (and emits metrics and logs)
instead of bypassing telemetry. -/
theorem class_wrapper_emits_despite_should_trace_false :
    should_trace (some teleOff) ⟨some "business", none, some "run"⟩ = false ∧
      (callMethod (instrument_class svcClass (some teleOff)) "run" ()).map (fun r => r.1) =
        some (.ok 7) ∧
      (callMethod (instrument_class svcClass (some teleOff)) "run" ()).map
          (fun r => r.2.head?) = some (some (.startSpan "telemetry.class.Svc.run")) :=
  ⟨rfl, rfl, rfl⟩

/-- C5 (amended) — the class-instrumentor wrapper performs no
`should_trace` decision check: it calls the original directly (with no
telemetry emission at all) exactly when the resolved telemetry context is
null or lacks the `traces` capability; whenever the context has a live
tracer it starts a span on every invocation, even for a descriptor on
which `should_trace` is false. -/
theorem class_wrapper_no_decision_check {σ α : Type} (spanName lateQ : String)
    (orig : PyMethod σ α) (telemetry : Option Tele) (x : σ) (t : Tele) :
    ((orig.telemetryAttr.getD telemetry = none ∨
        (orig.telemetryAttr.getD telemetry = some t ∧ t.hasTraces = false)) →
      (make_wrapper spanName lateQ orig telemetry).call x = orig.call x) ∧
    (orig.telemetryAttr.getD telemetry = some t → t.hasTraces = true →
      ∀ ctx : CallDescriptor, should_trace (some t) ctx = false →
        ((make_wrapper spanName lateQ orig telemetry).call x).2.head? =
          some (.startSpan spanName)) := by
  constructor
  · rintro (h | ⟨h, hT⟩)
    · simp [make_wrapper, h]
    · simp [make_wrapper, h, hT]
  · intro h hT ctx hst
    rw [show (make_wrapper spanName lateQ orig telemetry).call x =
        class_wrapper_body t spanName lateQ (fun _ => orig.call x) by
      simp [make_wrapper, h, hT]]
    exact class_wrapper_body_head t spanName lateQ _

theorem class_wrapper_no_decision_check_witness :
    (make_wrapper "telemetry.class.Svc.run" "Svc.run" svcMethod none).call () =
        svcMethod.call () ∧
      ((make_wrapper "telemetry.class.Svc.run" "Svc.run" svcMethod
          (some teleOff)).call ()).2.head? = some (.startSpan "telemetry.class.Svc.run") :=
  ⟨(class_wrapper_no_decision_check "telemetry.class.Svc.run" "Svc.run" svcMethod none ()
      teleOff).1 (Or.inl rfl),
   (class_wrapper_no_decision_check "telemetry.class.Svc.run" "Svc.run" svcMethod
      (some teleOff) () teleOff).2 rfl rfl ⟨some "business", none, some "run"⟩ rfl⟩

end TelemetrySdk
